import Mathlib

/-!
Shallow embedding of the taskwarrior ulauncher extension (src/main.py).
Python strings are modelled as Lean strings (both are sequences of unicode
scalar values, so len and slicing agree); JSON numbers are modelled as
rationals; fallible Python operations return Except values, and a try/except
block is modelled by matching on the Except.
-/

/-- Values produced by json.loads. Numbers are modelled as rationals. -/
inductive Json where
  | null : Json
  | bool (b : Bool) : Json
  | num (q : ℚ) : Json
  | str (s : String) : Json
  | arr (elems : List Json) : Json
  | obj (fields : List (String × Json)) : Json

/-- Python exceptions that the embedded code can raise or catch. -/
inductive PyExn where
  | calledProcessError (msg : String)
  | fileNotFound (msg : String)
  | permissionError (msg : String)
  | jsonDecodeError (msg : String)
  | attributeError (msg : String)
  | typeError (msg : String)
  | other (msg : String)
deriving DecidableEq

/-- Action attached to a result item (HideWindowAction, RunScriptAction or
SetUserQueryAction in the source). -/
inductive ItemAction where
  | hideWindow
  | runScript (script : String)
  | setUserQuery (query : String)
deriving DecidableEq

/-- Embeds ExtensionResultItem: the fields the source sets. -/
structure UlItem where
  icon : String
  name : String
  description : String
  on_enter : ItemAction
deriving DecidableEq

/-- Embeds the value returned by every handler: RenderResultListAction. -/
inductive UlAction where
  | render (items : List UlItem)
deriving DecidableEq

/-- The keyword preference bundle the host hands to the extension
(extension.preferences with keys list_kw, add_kw, annotate_kw). -/
structure Prefs where
  list_kw : String
  add_kw : String
  annotate_kw : String

/-- Embeds a subprocess.run call site: its argument vector and the keyword
parameters the source passes. -/
structure SubprocessCall where
  argv : List String
  capture_output : Bool
  text : Bool
  check : Bool
  timeout : Option ℚ
deriving DecidableEq

/-- Environment oracle for the operating-system boundary: outcomes of the
version probes, of subprocess.run on a built call, and of json.loads. A
probe outcome may be any exception subprocess.run can raise, caught by
is_tool_installed or not. -/
structure Env where
  probe : String → Except PyExn String
  run : SubprocessCall → Except PyExn String
  jsonParse : String → Except PyExn Json

/-- The single-quote character, Char.ofNat 39. -/
def squote : Char := Char.ofNat 39

/-- One-character string holding a single quote. -/
def sglq : String := String.singleton squote

/-- Python s[:n] on a string: the first n scalar values, clamped. -/
def pySlice (n : Nat) (s : String) : String := String.mk (s.data.take n)

/-- Python truthiness coercion for an optional string argument combined with
`or`, as in `event.get_argument() or dflt` (lines 68 and 165): None and the
empty string are falsy. -/
def pyOr (arg : Option String) (dflt : String) : String :=
  match arg with
  | none => dflt
  | some s => if s = "" then dflt else s

/-- Characters removed by Python str.strip at both ends (ASCII whitespace:
space, tab, newline, carriage return, vertical tab, form feed). -/
def pyIsSpace (c : Char) : Bool :=
  c == ' ' || c == Char.ofNat 9 || c == Char.ofNat 10 || c == Char.ofNat 13 ||
    c == Char.ofNat 11 || c == Char.ofNat 12

/-- Python str.strip: drop whitespace from both ends. -/
def pyStrip (cs : List Char) : List Char :=
  ((cs.dropWhile pyIsSpace).reverse.dropWhile pyIsSpace).reverse

/-- One hexadecimal digit, case-insensitive: the character class [0-9a-f]
of UUID_REGEX under re.IGNORECASE. -/
def isHexChar (c : Char) : Bool :=
  (decide ('0' ≤ c) && decide (c ≤ '9')) ||
    (decide ('a' ≤ c) && decide (c ≤ 'f')) ||
    (decide ('A' ≤ c) && decide (c ≤ 'F'))

/-- Consume exactly n hexadecimal digits, returning the remaining input. -/
def hexRun : Nat → List Char → Option (List Char)
  | 0, cs => some cs
  | _ + 1, [] => none
  | n + 1, c :: cs => if isHexChar c then hexRun n cs else none

/-- Consume one hyphen. -/
def expectDash : List Char → Option (List Char)
  | [] => none
  | c :: cs => if c = '-' then some cs else none

/-- Embeds UUID_REGEX (line 18): an anchored match of 8-4-4-4-12 hex digits
separated by hyphens, succeeding only when the whole input is consumed. -/
def uuidMatch (cs : List Char) : Bool :=
  match ((((((((hexRun 8 cs).bind expectDash).bind (hexRun 4)).bind expectDash).bind
      (hexRun 4)).bind expectDash).bind (hexRun 4)).bind expectDash).bind (hexRun 12) with
  | some [] => true
  | _ => false

/-- Result of the identifier check in the router (line 170). -/
inductive ArgClass where
  | identifier
  | filterExpression
deriving DecidableEq

/-- Embeds line 170: UUID_REGEX.match(argument.strip()) decides whether the
argument is a task identifier or a filter expression. -/
def classify (argument : String) : ArgClass :=
  if uuidMatch (pyStrip argument.data) then ArgClass.identifier
  else ArgClass.filterExpression

/-- Characters shlex.quote leaves unquoted: ASCII word characters plus the
punctuation at-sign, percent, plus, equals, colon, comma, dot, slash, hyphen. -/
def shlexSafeChar (c : Char) : Bool :=
  (decide ('a' ≤ c) && decide (c ≤ 'z')) || (decide ('A' ≤ c) && decide (c ≤ 'Z')) ||
    (decide ('0' ≤ c) && decide (c ≤ '9')) ||
    c == '_' || c == '@' || c == '%' || c == '+' || c == '=' || c == ':' ||
    c == ',' || c == '.' || c == '/' || c == '-'

/-- Embeds shlex.quote: empty becomes a pair of single quotes, fully safe
strings pass through, anything else is single-quoted with every embedded
single quote replaced by the five-character sequence quote-dquote-quote-dquote-quote. -/
def shlexQuote (s : String) : String :=
  if s = "" then sglq ++ sglq
  else if s.data.all shlexSafeChar then s
  else
    sglq ++ String.mk (s.data.flatMap fun c =>
      if c = squote then [squote, '"', squote, '"', squote] else [c]) ++ sglq

/-- Split a character list at the first space, as Python split(chr 32, 1):
returns the part before the first space and, when a space exists, the part
after it. -/
def splitFirstSpace : List Char → List Char × Option (List Char)
  | [] => ([], none)
  | c :: cs =>
    if c = ' ' then ([], some cs)
    else
      let r := splitFirstSpace cs
      (c :: r.1, r.2)

/-- Modelled from the spec: the host boundary supplies each Query as a
keyword and argument pair read from the typed line; the keyword is the text
before the first space and the argument is everything after it (absent when
the line has no space). -/
def parseQuery (line : String) : String × Option String :=
  let r := splitFirstSpace line.data
  (String.mk r.1, r.2.map String.mk)

/-- Embeds show_error_item (lines 22-32): one item with a hide action. -/
def show_error_item (title : String) (description : String) : UlAction :=
  UlAction.render [{ icon := "images/icon.png", name := title,
                     description := description, on_enter := ItemAction.hideWindow }]

/-- Embeds is_tool_installed (lines 34-41) applied to the probe outcome:
success returns true, and the two exceptions the except clause names,
FileNotFoundError and CalledProcessError, return false; any other
exception, such as a PermissionError for a present but non-executable
binary, is not caught and propagates to the caller. -/
def is_tool_installed (outcome : Except PyExn String) : Except PyExn Bool :=
  match outcome with
  | Except.ok _ => Except.ok true
  | Except.error (PyExn.fileNotFound _) => Except.ok false
  | Except.error (PyExn.calledProcessError _) => Except.ok false
  | Except.error e => Except.error e

/-- The version probe invocation built by is_tool_installed (line 37). -/
def probeCall (name : String) : SubprocessCall :=
  { argv := [name, "--version"], capture_output := true, text := true,
    check := true, timeout := none }

/-- The export invocation built at lines 70-71; subprocess.run is given no
timeout keyword, so the timeout field is none. -/
def exportCall (user_filter : String) : SubprocessCall :=
  { argv := ["task", user_filter, "rc.verbose=nothing", "export"],
    capture_output := true, text := true, check := true, timeout := none }

/-- Embeds line 83: truncate a long description for display. -/
def display_text (description : String) : String :=
  if description.length > 50 then pySlice 47 description ++ "..." else description

/-- First-match lookup in a JSON object's fields (dict indexing). -/
def jsonGet : List (String × Json) → String → Option Json
  | [], _ => none
  | (k, v) :: rest, key => if k = key then some v else jsonGet rest key

/-- Embeds the sort key of line 78, t.get(urgency key, 0): objects yield
their urgency field or 0; any non-object raises AttributeError because only
dicts have a get method. -/
def getUrgency (task : Json) : Except PyExn Json :=
  match task with
  | Json.obj fields =>
    match jsonGet fields "urgency" with
    | some v => Except.ok v
    | none => Except.ok (Json.num 0)
  | _ => Except.error (PyExn.attributeError "object has no attribute get")

/-- The numeric urgency of a record, 0 when absent or not numeric. -/
def urgQ (task : Json) : ℚ :=
  match getUrgency task with
  | Except.ok (Json.num q) => q
  | _ => 0

/-- Whether a JSON value is a number. -/
def isNum : Json → Bool
  | Json.num _ => true
  | _ => false

/-- Insert a record into an already processed list so that records with
strictly smaller urgency come after it: the earlier record goes in front of
every equal-urgency record, giving the stable descending order of Python
sorted with reverse=True. -/
def insertByUrg (t : Json) : List Json → List Json
  | [] => [t]
  | u :: rest => if urgQ u ≤ urgQ t then t :: u :: rest else u :: insertByUrg t rest

/-- Stable descending-by-urgency sort; observably equal to Python sorted
with key urgency and reverse=True, whose output is the unique stable
non-increasing reordering. -/
def sortByUrg : List Json → List Json
  | [] => []
  | t :: rest => insertByUrg t (sortByUrg rest)

/-- Embeds line 78, sorted(tasks, key, reverse=True): the key is computed
for every element first (raising AttributeError on a non-dict element); the
comparisons are modelled only for numeric keys, any other key raising
TypeError as mixed-type comparisons do in Python. -/
def pySortDescUrg (tasks : List Json) : Except PyExn (List Json) := do
  let keys ← tasks.mapM getUrgency
  if keys.all isNum then Except.ok (sortByUrg tasks)
  else Except.error (PyExn.typeError "unsupported comparison")

/-- Python truthiness of a decoded JSON value, for the check at line 74. -/
def jsonFalsy : Json → Bool
  | Json.null => true
  | Json.bool b => !b
  | Json.num q => q == 0
  | Json.str s => s == ""
  | Json.arr elems => elems.isEmpty
  | Json.obj fields => fields.isEmpty

/-- Iterating a decoded JSON value as Python does before sorting: arrays
yield elements, strings yield one-character strings, objects yield their
keys, and other values raise TypeError. -/
def jsonElems : Json → Except PyExn (List Json)
  | Json.arr elems => Except.ok elems
  | Json.str s => Except.ok (s.data.map fun c => Json.str (String.singleton c))
  | Json.obj fields => Except.ok (fields.map fun f => Json.str f.1)
  | _ => Except.error (PyExn.typeError "object is not iterable")

/-- Embeds the loop body at lines 79-96 for one record: a non-dict record is
skipped (line 79), a missing description or uuid raises KeyError which the
inner except catches by skipping (lines 95-96), and a record with both
fields yields an item whose enter action resubmits the list keyword with the
uuid (line 92). Records whose description or uuid is not a string are
modelled as raising TypeError, as Python does when taking len of a
non-string description. -/
def recordItem (list_kw : String) (task : Json) : Except PyExn (Option UlItem) :=
  match task with
  | Json.obj fields =>
    match jsonGet fields "description" with
    | none => Except.ok none
    | some d =>
      match jsonGet fields "uuid" with
      | none => Except.ok none
      | some u =>
        match d, u with
        | Json.str description, Json.str uuid =>
          Except.ok (some { icon := "images/icon.png",
                            name := display_text description,
                            description := "Press Enter to see actions for this task...",
                            on_enter := ItemAction.setUserQuery (list_kw ++ " " ++ uuid) })
        | _, _ => Except.error (PyExn.typeError "object has no len")
  | _ => Except.ok none

/-- The items-accumulating loop of lines 77-96 over the sorted records. -/
def collectItems (list_kw : String) : List Json → Except PyExn (List UlItem)
  | [] => Except.ok []
  | task :: rest => do
    match ← recordItem list_kw task with
    | some item => do
      let items ← collectItems list_kw rest
      Except.ok (item :: items)
    | none => collectItems list_kw rest

/-- The body of ListTasksListener.on_event inside its try block
(lines 68-98). -/
def listTasksBody (env : Env) (prefs : Prefs) (argument : Option String) :
    Except PyExn UlAction := do
  let user_filter := pyOr argument "+READY"
  let stdout ← env.run (exportCall user_filter)
  let tasks ← env.jsonParse stdout
  if jsonFalsy tasks then
    Except.ok (show_error_item ("No tasks found for filter: " ++ sglq ++ user_filter ++ sglq) "")
  else do
    let elems ← jsonElems tasks
    let sortedTasks ← pySortDescUrg elems
    let items ← collectItems prefs.list_kw sortedTasks
    Except.ok (UlAction.render items)

/-- The message text carried by a Python exception, as str(e) at line 100. -/
def pyExnStr : PyExn → String
  | PyExn.calledProcessError msg => msg
  | PyExn.fileNotFound msg => msg
  | PyExn.permissionError msg => msg
  | PyExn.jsonDecodeError msg => msg
  | PyExn.attributeError msg => msg
  | PyExn.typeError msg => msg
  | PyExn.other msg => msg

/-- Embeds ListTasksListener.on_event (lines 67-100): the try/except wraps
the whole body and converts any exception into a generic error item. -/
def listTasks (env : Env) (prefs : Prefs) (argument : Option String) : UlAction :=
  match listTasksBody env prefs argument with
  | Except.ok action => action
  | Except.error e => show_error_item "An Unexpected Error Occurred" (pyExnStr e)

/-- The command string built at line 52: the raw description is interpolated
into the shell string. -/
def addCommand (task_description : String) : String :=
  "task rc.confirmation=off add " ++ task_description

/-- Embeds AddTaskListener.on_event (lines 47-60). -/
def addTask (argument : Option String) : UlAction :=
  match argument with
  | none => show_error_item "Please enter a description for the new task." ""
  | some task_description =>
    if task_description = "" then
      show_error_item "Please enter a description for the new task." ""
    else
      UlAction.render [{ icon := "images/icon.png",
                         name := "Add task: " ++ sglq ++ task_description ++ sglq,
                         description := "Press Enter to add this task to Taskwarrior",
                         on_enter := ItemAction.runScript (addCommand task_description) }]

/-- The fixed action list built by TaskActionMenuListener (lines 110-120),
with the taskopen item appended only when the taskopen probe returned
available. -/
def actionMenuItems (taskopen_installed : Bool) (prefs : Prefs) (uuid : String) : List UlItem :=
  [ { icon := "images/icon.png", name := "Mark as Done",
      description := "Mark task " ++ pySlice 8 uuid ++ "... as done",
      on_enter := ItemAction.runScript ("task " ++ uuid ++ " done") },
    { icon := "images/icon.png", name := "Start Task",
      description := "Start tracking task " ++ pySlice 8 uuid ++ "...",
      on_enter := ItemAction.runScript ("task " ++ uuid ++ " start") },
    { icon := "images/icon.png", name := "Stop Task",
      description := "Stop tracking task " ++ pySlice 8 uuid ++ "...",
      on_enter := ItemAction.runScript ("task " ++ uuid ++ " stop") },
    { icon := "images/icon.png", name := "Annotate Task",
      description := "Add a note to task " ++ pySlice 8 uuid ++ "...",
      on_enter := ItemAction.setUserQuery (prefs.annotate_kw ++ " " ++ uuid ++ " ") },
    { icon := "images/gavel.png", name := "Delete Task",
      description := "Permanently delete task " ++ pySlice 8 uuid ++ "...",
      on_enter := ItemAction.runScript ("task rc.confirmation=off " ++ uuid ++ " delete") } ]
  ++ (if taskopen_installed then
      [ { icon := "images/icon.png", name := "Open Task",
          description := "Open task " ++ pySlice 8 uuid ++ "... with taskopen",
          on_enter := ItemAction.runScript ("taskopen " ++ uuid) } ]
    else [])

/-- Embeds TaskActionMenuListener.on_event (lines 106-122): slicing a None
argument raises TypeError while building the fixed items; then the taskopen
probe at line 119 runs with no surrounding try, so an exception it does not
catch propagates out of the handler. -/
def actionMenu (env : Env) (prefs : Prefs) (argument : Option String) :
    Except PyExn UlAction :=
  match argument with
  | none => Except.error (PyExn.typeError "NoneType is not subscriptable")
  | some uuid => do
    let taskopen_installed ← is_tool_installed (env.probe "taskopen")
    Except.ok (UlAction.render (actionMenuItems taskopen_installed prefs uuid))

/-- The command string built at line 139: the uuid token is interpolated as
is, the note text is passed through shlex.quote. -/
def annotateCommand (uuid : String) (text : String) : String :=
  "task " ++ uuid ++ " annotate " ++ shlexQuote text

/-- The argument handling of AnnotateTaskListener (lines 129-133): a missing
argument or one with no space yields no parse; otherwise split at the first
space into the uuid token and the note text. -/
def annotateParse (argument : Option String) : Option (String × String) :=
  match argument with
  | none => none
  | some query =>
    match splitFirstSpace query.data with
    | (_, none) => none
    | (before, some after) => some (String.mk before, String.mk after)

/-- Embeds AnnotateTaskListener.on_event (lines 128-148). -/
def annotateTask (argument : Option String) : UlAction :=
  match annotateParse argument with
  | none => show_error_item "Usage: ta <uuid> <annotation text>" ""
  | some (uuid, text) =>
    UlAction.render [{ icon := "images/icon.png",
                       name := "Add annotation to task " ++ pySlice 8 uuid ++ "...",
                       description := "Note: " ++ sglq ++ text ++ sglq,
                       on_enter := ItemAction.runScript (annotateCommand uuid text) }]

/-- Embeds KeywordQueryEventListener.on_event (lines 160-180): probe the
task binary first (the probe call itself can raise, and the router has no
try), then dispatch on the keyword, using the identifier check to split the
list keyword between the action menu and the task list; an unmatched
keyword falls through returning None. -/
def route (env : Env) (prefs : Prefs) (keyword : String) (argument : Option String) :
    Except PyExn (Option UlAction) := do
  let installed ← is_tool_installed (env.probe "task")
  if installed = false then
    Except.ok (some (show_error_item "Taskwarrior not found."
      ("Please ensure " ++ sglq ++ "task" ++ sglq ++ " is installed and in your PATH.")))
  else
    if keyword = prefs.list_kw then
      if classify (pyOr argument "") = ArgClass.identifier then do
        let action ← actionMenu env prefs argument
        Except.ok (some action)
      else Except.ok (some (listTasks env prefs argument))
    else if keyword = prefs.add_kw then Except.ok (some (addTask argument))
    else if keyword = prefs.annotate_kw then Except.ok (some (annotateTask argument))
    else Except.ok none

/-! Concrete fixtures used by witnesses and counterexamples. -/

/-- A concrete preference bundle. -/
def prefs0 : Prefs := { list_kw := "tl", add_kw := "t", annotate_kw := "ta" }

/-- The example identifier from the specification. -/
def exUuid : String := "3b1f9c2a-4e5d-4a11-9c3e-7f2a1b6d9e00"

/-- A sixty-character description. -/
def sixtyX : String := "xxxxxxxxxxxxxxxxxxxxxxxxxxxxxxxxxxxxxxxxxxxxxxxxxxxxxxxxxxxx"

/-- Claim C1: the rendered label equals the description unmodified when it
has at most 50 characters, and equals the first 47 characters followed by
the 3-character ellipsis when it is longer than 50 characters. -/
theorem C1_label_truncation (d : String) :
    (d.length ≤ 50 → display_text d = d) ∧
    (50 < d.length →
      display_text d = pySlice 47 d ++ "..." ∧
      (pySlice 47 d).length = 47 ∧ ("..." : String).length = 3) := by
  constructor
  · intro h
    unfold display_text
    rw [if_neg (by omega)]
  · intro h
    refine ⟨?_, ?_, rfl⟩
    · unfold display_text
      rw [if_pos (by omega)]
    · show (d.data.take 47).length = 47
      rw [List.length_take]
      have : d.data.length = d.length := rfl
      omega

theorem C1_label_truncation_wit :
    display_text "short" = "short" ∧
    (display_text sixtyX = pySlice 47 sixtyX ++ "..." ∧
      (pySlice 47 sixtyX).length = 47 ∧ ("..." : String).length = 3) :=
  ⟨(C1_label_truncation "short").1 (by decide),
   (C1_label_truncation sixtyX).2 (by decide)⟩

/-- Claim C6 counterexample: the export invocation carries no timeout at
all, so it is not issued with a mandatory timeout in the 5 to 10 second
design range. -/
theorem C6_cex : ¬ ∃ t : ℚ, (exportCall "+READY").timeout = some t ∧ 5 ≤ t ∧ t ≤ 10 := by
  rintro ⟨t, ht, -⟩
  exact Option.noConfusion ht

/-- Claim C6 as amended: every export invocation is issued with no timeout
(the call can block indefinitely), while check is set so that a non-zero
exit raises an error which the list handler converts into an error item
rather than a crash. -/
theorem C6_no_timeout :
    (∀ f : String, (exportCall f).timeout = none ∧ (exportCall f).check = true) ∧
    (∀ (env : Env) (prefs : Prefs) (argument : Option String) (e : PyExn),
      env.run (exportCall (pyOr argument "+READY")) = Except.error e →
      listTasks env prefs argument =
        show_error_item "An Unexpected Error Occurred" (pyExnStr e)) := by
  constructor
  · intro f; exact ⟨rfl, rfl⟩
  · intro env prefs argument e h
    have hb : listTasksBody env prefs argument = Except.error e := by
      simp only [listTasksBody]
      rw [h]
      rfl
    unfold listTasks
    rw [hb]

/-- Environment whose subprocess calls all fail with a non-zero exit. -/
def envExitErr : Env :=
  { probe := fun _ => Except.ok "3.0.0",
    run := fun _ => Except.error (PyExn.calledProcessError "exit status 1"),
    jsonParse := fun _ => Except.error (PyExn.jsonDecodeError "Expecting value") }

theorem C6_no_timeout_wit :
    listTasks envExitErr prefs0 (some "+READY") =
      show_error_item "An Unexpected Error Occurred"
        (pyExnStr (PyExn.calledProcessError "exit status 1")) :=
  C6_no_timeout.2 envExitErr prefs0 (some "+READY")
    (PyExn.calledProcessError "exit status 1") rfl

/-- Claim C8: when the task version probe fails, every keyword and argument
resolves to the same single tool-unavailable error item. -/
theorem C8_tool_unavailable (env : Env) (prefs : Prefs) (keyword : String)
    (argument : Option String)
    (h : is_tool_installed (env.probe "task") = Except.ok false) :
    route env prefs keyword argument =
      Except.ok (some (show_error_item "Taskwarrior not found."
        ("Please ensure " ++ sglq ++ "task" ++ sglq ++ " is installed and in your PATH."))) := by
  unfold route
  rw [h]
  rfl

/-- Environment in which the task binary is missing. -/
def envNoTask : Env :=
  { probe := fun _ => Except.error (PyExn.fileNotFound "No such file or directory: task"),
    run := fun _ => Except.error (PyExn.other "unreachable"),
    jsonParse := fun _ => Except.error (PyExn.other "unreachable") }

theorem C8_tool_unavailable_wit :
    route envNoTask prefs0 "anything" (some "argument") =
      Except.ok (some (show_error_item "Taskwarrior not found."
        ("Please ensure " ++ sglq ++ "task" ++ sglq ++ " is installed and in your PATH."))) :=
  C8_tool_unavailable envNoTask prefs0 "anything" (some "argument") rfl

/-- Claim C10: the default filter replaces only a missing or empty list
argument; every non-empty argument, whitespace-only included, is passed
verbatim to the export invocation. -/
theorem C10_default_filter :
    pyOr none "+READY" = "+READY" ∧
    pyOr (some "") "+READY" = "+READY" ∧
    ∀ s : String, s ≠ "" →
      pyOr (some s) "+READY" = s ∧
      (exportCall (pyOr (some s) "+READY")).argv =
        ["task", s, "rc.verbose=nothing", "export"] := by
  refine ⟨rfl, rfl, ?_⟩
  intro s hs
  have h1 : pyOr (some s) "+READY" = s := by
    simp [pyOr, hs]
  refine ⟨h1, ?_⟩
  rw [h1]
  rfl

theorem C10_default_filter_wit :
    pyOr (some "   ") "+READY" = "   " ∧
    (exportCall (pyOr (some "   ") "+READY")).argv =
      ["task", "   ", "rc.verbose=nothing", "export"] :=
  C10_default_filter.2.2 "   " (by decide)

/-- Claim C4 counterexample: the add command interpolates the raw
description into the shell string, not its shell-quoted form, and the
annotate command embeds a uuid token that does not satisfy the identifier
format. -/
theorem C4_cex :
    addCommand "a; rm -rf x" = "task rc.confirmation=off add a; rm -rf x" ∧
    addCommand "a; rm -rf x" ≠ "task rc.confirmation=off add " ++ shlexQuote "a; rm -rf x" ∧
    annotateTask (some "x;rm note") =
      UlAction.render [{ icon := "images/icon.png",
                         name := "Add annotation to task x;rm...",
                         description := "Note: " ++ sglq ++ "note" ++ sglq,
                         on_enter := ItemAction.runScript "task x;rm annotate note" }] ∧
    uuidMatch ("x;rm").data = false := by
  refine ⟨by decide, by decide, by decide, by decide⟩

/-- Claim C4 as amended: the annotation free text is embedded through
shlex.quote (a single shell token, as the scenario requires), but the add
command embeds the raw description unescaped, and the annotate command
embeds its uuid token as split from the argument without any format
validation. -/
theorem C4_escaping_actual :
    (∀ uuid text : String,
      annotateCommand uuid text = "task " ++ uuid ++ " annotate " ++ shlexQuote text) ∧
    (∀ d : String, addCommand d = "task rc.confirmation=off add " ++ d) ∧
    shlexQuote "note with spaces" = sglq ++ "note with spaces" ++ sglq := by
  exact ⟨fun _ _ => rfl, fun _ => rfl, by decide⟩

/-- Bind of a successful Except value applies the continuation. -/
theorem except_ok_bind {α β : Type} (a : α) (f : α → Except PyExn β) :
    (Except.ok a >>= f : Except PyExn β) = f a := rfl

/-- When the task probe reports available, routing reduces to the keyword
dispatch. -/
theorem route_probe_ok (env : Env) (prefs : Prefs) (keyword : String)
    (argument : Option String)
    (hT : is_tool_installed (env.probe "task") = Except.ok true) :
    route env prefs keyword argument =
      (if keyword = prefs.list_kw then
        (if classify (pyOr argument "") = ArgClass.identifier then do
          let action ← actionMenu env prefs argument
          Except.ok (some action)
        else Except.ok (some (listTasks env prefs argument)))
      else if keyword = prefs.add_kw then Except.ok (some (addTask argument))
      else if keyword = prefs.annotate_kw then Except.ok (some (annotateTask argument))
      else Except.ok none) := by
  unfold route
  rw [hT]
  rfl

/-- Environment in which the task probe succeeds but the taskopen binary is
present yet not executable, so its version probe raises a PermissionError,
which is_tool_installed does not catch. -/
def envTaskopenPerm : Env :=
  { probe := fun name =>
      if name = "taskopen" then
        Except.error (PyExn.permissionError "Permission denied: taskopen")
      else Except.ok "3.0.0",
    run := fun _ => Except.ok "out",
    jsonParse := fun _ => Except.ok (Json.arr []) }

/-- Claim C5 counterexample: a routed list query carrying a valid uuid
reaches the action menu handler, whose taskopen probe at line 119 raises a
PermissionError that neither the except clause of is_tool_installed nor any
enclosing try catches; the exception crosses the router boundary instead of
becoming an error item. -/
theorem C5_cex :
    route envTaskopenPerm prefs0 prefs0.list_kw (some exUuid) =
      Except.error (PyExn.permissionError "Permission denied: taskopen") := rfl

/-- Claim C5 as amended: the list handler's try converts any failure of its
body into the single generic error item carrying the failure text, but the
router itself has no exception handler, so it propagates faults uncaught;
every routed query resolves to a renderable result when each probe outcome
is one is_tool_installed handles (success, FileNotFoundError or
CalledProcessError), while an uncaught probe exception inside the action
menu handler escapes past the router. -/
theorem C5_handler_catch :
    (∀ (env : Env) (prefs : Prefs) (argument : Option String) (e : PyExn),
      listTasksBody env prefs argument = Except.error e →
      listTasks env prefs argument =
        show_error_item "An Unexpected Error Occurred" (pyExnStr e)) ∧
    (∀ (env : Env) (prefs : Prefs) (keyword : String) (argument : Option String),
      (∀ name : String, ∃ b : Bool, is_tool_installed (env.probe name) = Except.ok b) →
      ∃ r, route env prefs keyword argument = Except.ok r) := by
  constructor
  · intro env prefs argument e h
    unfold listTasks
    rw [h]
  · intro env prefs keyword argument hp
    obtain ⟨b, hb⟩ := hp "task"
    cases b with
    | false =>
      refine ⟨some (show_error_item "Taskwarrior not found."
          ("Please ensure " ++ sglq ++ "task" ++ sglq ++ " is installed and in your PATH.")), ?_⟩
      unfold route
      rw [hb]
      rfl
    | true =>
      rw [route_probe_ok env prefs keyword argument hb]
      by_cases hk : keyword = prefs.list_kw
      · rw [if_pos hk]
        by_cases hc : classify (pyOr argument "") = ArgClass.identifier
        · rw [if_pos hc]
          cases argument with
          | none => exact absurd hc (by decide)
          | some s =>
            obtain ⟨b2, hb2⟩ := hp "taskopen"
            have hAM : actionMenu env prefs (some s) =
                Except.ok (UlAction.render (actionMenuItems b2 prefs s)) := by
              simp only [actionMenu, hb2, except_ok_bind]
            rw [hAM]
            exact ⟨_, rfl⟩
        · rw [if_neg hc]
          exact ⟨_, rfl⟩
      · rw [if_neg hk]
        by_cases ha2 : keyword = prefs.add_kw
        · rw [if_pos ha2]
          exact ⟨_, rfl⟩
        · rw [if_neg ha2]
          by_cases han : keyword = prefs.annotate_kw
          · rw [if_pos han]
            exact ⟨_, rfl⟩
          · rw [if_neg han]
            exact ⟨_, rfl⟩

/-- Environment whose export output fails to parse as JSON. -/
def envParseErr : Env :=
  { probe := fun _ => Except.ok "3.0.0",
    run := fun _ => Except.ok "not json",
    jsonParse := fun _ => Except.error (PyExn.jsonDecodeError "Expecting value") }

theorem C5_handler_catch_wit :
    listTasks envParseErr prefs0 (some "project:Home") =
      show_error_item "An Unexpected Error Occurred"
        (pyExnStr (PyExn.jsonDecodeError "Expecting value")) ∧
    ∃ r, route envParseErr prefs0 "tl" (some "project:Home") = Except.ok r :=
  ⟨C5_handler_catch.1 envParseErr prefs0 (some "project:Home")
      (PyExn.jsonDecodeError "Expecting value") rfl,
   C5_handler_catch.2 envParseErr prefs0 "tl" (some "project:Home")
      (fun _ => ⟨true, rfl⟩)⟩

/-- A well-formed task record. -/
def goodTask : Json :=
  Json.obj [("description", Json.str "buy milk"),
            ("uuid", Json.str exUuid),
            ("urgency", Json.num 1)]

/-- Environment whose export contains one valid record and one bare number. -/
def envBad : Env :=
  { probe := fun _ => Except.ok "3.0.0",
    run := fun _ => Except.ok "out",
    jsonParse := fun _ => Except.ok (Json.arr [goodTask, Json.num 3]) }

/-- Environment whose export contains only a record with no uuid field. -/
def envAllInvalid : Env :=
  { probe := fun _ => Except.ok "3.0.0",
    run := fun _ => Except.ok "out",
    jsonParse := fun _ => Except.ok (Json.arr [Json.obj [("description", Json.str "no uuid")]]) }

/-- Claim C7 counterexample: with one valid record plus one non-object
record the whole list collapses into the generic error item (the sort key
lookup raises before the per-record skip), instead of rendering the valid
record; and when every record is dropped by validation the result is an
empty rendered list, not the informational no-tasks item. -/
theorem C7_cex :
    listTasks envBad prefs0 (some "+READY") =
      show_error_item "An Unexpected Error Occurred" "object has no attribute get" ∧
    listTasks envBad prefs0 (some "+READY") ≠
      UlAction.render [{ icon := "images/icon.png",
                         name := "buy milk",
                         description := "Press Enter to see actions for this task...",
                         on_enter := ItemAction.setUserQuery ("tl " ++ exUuid) }] ∧
    listTasks envAllInvalid prefs0 (some "+READY") = UlAction.render [] ∧
    listTasks envAllInvalid prefs0 (some "+READY") ≠
      show_error_item ("No tasks found for filter: " ++ sglq ++ "+READY" ++ sglq) "" := by
  refine ⟨by decide, by decide, by decide, by decide⟩

/-- Environment whose export is a JSON array of three records, the middle
one lacking a uuid. -/
def envTwo : Env :=
  { probe := fun _ => Except.ok "3.0.0",
    run := fun _ => Except.ok "out",
    jsonParse := fun _ => Except.ok (Json.arr
      [Json.obj [("description", Json.str "A"), ("uuid", Json.str "ua"), ("urgency", Json.num 1)],
       Json.obj [("description", Json.str "C"), ("urgency", Json.num 9)],
       Json.obj [("description", Json.str "B"), ("uuid", Json.str "ub"), ("urgency", Json.num 5)]]) }

/-- Environment whose export is an empty JSON array. -/
def envEmpty : Env :=
  { probe := fun _ => Except.ok "3.0.0",
    run := fun _ => Except.ok "",
    jsonParse := fun _ => Except.ok (Json.arr []) }

/-- Claim C7 as amended: an object record missing its description or uuid is
dropped while the remaining valid records are still rendered, but a record
that is not an object aborts the whole list into the generic error item;
the informational no-tasks item appears exactly when the export parses to a
falsy value such as an empty array, while a non-empty array whose records
are all dropped renders an empty list instead. -/
theorem C7_record_tolerance :
    (∀ (kw : String) (fields : List (String × Json)),
      jsonGet fields "description" = none ∨ jsonGet fields "uuid" = none →
      recordItem kw (Json.obj fields) = Except.ok none) ∧
    listTasks envTwo prefs0 none =
      UlAction.render
        [{ icon := "images/icon.png", name := "B",
           description := "Press Enter to see actions for this task...",
           on_enter := ItemAction.setUserQuery "tl ub" },
         { icon := "images/icon.png", name := "A",
           description := "Press Enter to see actions for this task...",
           on_enter := ItemAction.setUserQuery "tl ua" }] ∧
    listTasks envEmpty prefs0 none =
      show_error_item ("No tasks found for filter: " ++ sglq ++ "+READY" ++ sglq) "" ∧
    listTasks envAllInvalid prefs0 (some "+READY") = UlAction.render [] := by
  refine ⟨?_, by decide, by decide, by decide⟩
  intro kw fields h
  rcases h with h | h
  · simp only [recordItem, h]
  · cases hd : jsonGet fields "description" with
    | none => simp only [recordItem, hd]
    | some d => simp only [recordItem, hd, h]

theorem C7_record_tolerance_wit :
    recordItem "tl" (Json.obj [("description", Json.str "x")]) = Except.ok none :=
  C7_record_tolerance.1 "tl" [("description", Json.str "x")] (Or.inr rfl)

/-- Membership in an insertion is membership in the inserted element or the
original list. -/
theorem mem_insertByUrg {t u : Json} {l : List Json} :
    u ∈ insertByUrg t l ↔ u = t ∨ u ∈ l := by
  induction l with
  | nil => simp [insertByUrg]
  | cons v rest ih =>
    unfold insertByUrg
    by_cases hc : urgQ v ≤ urgQ t
    · rw [if_pos hc]
      simp [List.mem_cons]
    · rw [if_neg hc]
      simp only [List.mem_cons, ih]
      tauto

/-- Inserting into a non-increasing list keeps it non-increasing. -/
theorem pairwise_insertByUrg {t : Json} {l : List Json}
    (h : l.Pairwise fun a b => urgQ b ≤ urgQ a) :
    (insertByUrg t l).Pairwise fun a b => urgQ b ≤ urgQ a := by
  induction l with
  | nil => simp [insertByUrg]
  | cons v rest ih =>
    rw [List.pairwise_cons] at h
    obtain ⟨hv, hrest⟩ := h
    unfold insertByUrg
    by_cases hc : urgQ v ≤ urgQ t
    · rw [if_pos hc]
      refine List.Pairwise.cons ?_ (List.Pairwise.cons hv hrest)
      intro w hw
      rcases List.mem_cons.mp hw with rfl | hw
      · exact hc
      · exact le_trans (hv w hw) hc
    · rw [if_neg hc]
      refine List.Pairwise.cons ?_ (ih hrest)
      intro w hw
      rcases mem_insertByUrg.mp hw with rfl | hw
      · exact le_of_lt (lt_of_not_le hc)
      · exact hv w hw

/-- The stable sort produces a non-increasing urgency sequence. -/
theorem sortByUrg_pairwise (l : List Json) :
    (sortByUrg l).Pairwise fun a b => urgQ b ≤ urgQ a := by
  induction l with
  | nil => simp [sortByUrg]
  | cons t rest ih => exact pairwise_insertByUrg ih

/-- Filtering at the inserted element's own urgency puts it first: every
element it jumps over has strictly larger urgency. -/
theorem filter_insertByUrg_eq {q : ℚ} {t : Json} (ht : urgQ t = q) (l : List Json) :
    (insertByUrg t l).filter (fun u => urgQ u == q) =
      t :: l.filter (fun u => urgQ u == q) := by
  induction l with
  | nil => simp [insertByUrg, List.filter, ht]
  | cons v rest ih =>
    unfold insertByUrg
    by_cases hc : urgQ v ≤ urgQ t
    · rw [if_pos hc]
      simp [List.filter_cons, ht]
    · rw [if_neg hc]
      have hv : (urgQ v == q) = false := by
        subst ht
        simp only [beq_eq_false_iff_ne, ne_eq]
        intro hvq
        exact hc (le_of_eq hvq)
      simp [List.filter_cons, hv, ih]

/-- Filtering at any other urgency ignores the inserted element. -/
theorem filter_insertByUrg_ne {q : ℚ} {t : Json} (ht : ¬ urgQ t = q) (l : List Json) :
    (insertByUrg t l).filter (fun u => urgQ u == q) = l.filter (fun u => urgQ u == q) := by
  have htb : (urgQ t == q) = false := by simp [ht]
  induction l with
  | nil => simp [insertByUrg, List.filter, htb]
  | cons v rest ih =>
    unfold insertByUrg
    by_cases hc : urgQ v ≤ urgQ t
    · rw [if_pos hc]
      simp [List.filter_cons, htb]
    · rw [if_neg hc]
      simp [List.filter_cons, ih]

/-- Stability: the records at any fixed urgency keep their input order. -/
theorem sortByUrg_filter (l : List Json) (q : ℚ) :
    (sortByUrg l).filter (fun u => urgQ u == q) = l.filter (fun u => urgQ u == q) := by
  induction l with
  | nil => rfl
  | cons t rest ih =>
    show (insertByUrg t (sortByUrg rest)).filter _ = _
    by_cases ht : urgQ t = q
    · rw [filter_insertByUrg_eq ht, ih]
      simp [List.filter_cons, ht]
    · rw [filter_insertByUrg_ne ht, ih]
      simp [List.filter_cons, ht]

/-- When every record is an object with a numeric or absent urgency, the
key extraction pass succeeds and every key is numeric. -/
theorem mapM_getUrgency_ok {tasks : List Json}
    (h : ∀ t ∈ tasks, ∃ q : ℚ, getUrgency t = Except.ok (Json.num q)) :
    ∃ keys : List Json, tasks.mapM getUrgency = Except.ok keys ∧ keys.all isNum = true := by
  induction tasks with
  | nil => exact ⟨[], rfl, rfl⟩
  | cons t rest ih =>
    obtain ⟨q, hq⟩ := h t (List.mem_cons_self t rest)
    obtain ⟨keys, hkeys, hall⟩ := ih (fun u hu => h u (List.mem_cons_of_mem t hu))
    refine ⟨Json.num q :: keys, ?_, ?_⟩
    · rw [List.mapM_cons, hq, hkeys]
      rfl
    · simp [List.all_cons, hall, isNum]

/-- Claim C2: on well-formed records the sort of line 78 succeeds, its
output is non-increasing by urgency (absent urgency counting as 0), and
records of equal urgency keep the export's emission order. -/
theorem C2_sort_desc_stable (tasks : List Json)
    (h : ∀ t ∈ tasks, ∃ q : ℚ, getUrgency t = Except.ok (Json.num q)) :
    pySortDescUrg tasks = Except.ok (sortByUrg tasks) ∧
    (sortByUrg tasks).Pairwise (fun a b => urgQ b ≤ urgQ a) ∧
    ∀ q : ℚ, (sortByUrg tasks).filter (fun t => urgQ t == q) =
      tasks.filter (fun t => urgQ t == q) := by
  refine ⟨?_, sortByUrg_pairwise tasks, fun q => sortByUrg_filter tasks q⟩
  obtain ⟨keys, hkeys, hall⟩ := mapM_getUrgency_ok h
  unfold pySortDescUrg
  rw [hkeys]
  show (if keys.all isNum = true then Except.ok (sortByUrg tasks)
    else Except.error (PyExn.typeError "unsupported comparison")) = Except.ok (sortByUrg tasks)
  rw [if_pos hall]

/-- Three records, the last two sharing one urgency value. -/
def tasksW : List Json :=
  [Json.obj [("description", Json.str "A"), ("uuid", Json.str "ua"), ("urgency", Json.num 1)],
   Json.obj [("description", Json.str "B"), ("uuid", Json.str "ub"), ("urgency", Json.num 5)],
   Json.obj [("description", Json.str "D"), ("uuid", Json.str "ud"), ("urgency", Json.num 5)]]

theorem C2_sort_desc_stable_wit :
    pySortDescUrg tasksW = Except.ok (sortByUrg tasksW) ∧
    (sortByUrg tasksW).Pairwise (fun a b => urgQ b ≤ urgQ a) ∧
    (sortByUrg tasksW).filter (fun t => urgQ t == (5 : ℚ)) =
      tasksW.filter (fun t => urgQ t == (5 : ℚ)) := by
  have h := C2_sort_desc_stable tasksW (by
    intro t ht
    simp only [tasksW, List.mem_cons, List.not_mem_nil, or_false] at ht
    rcases ht with rfl | rfl | rfl
    · exact ⟨1, rfl⟩
    · exact ⟨5, rfl⟩
    · exact ⟨5, rfl⟩)
  exact ⟨h.1, h.2.1, h.2.2 5⟩

/-- Stated from the specification's words, for comparison with the
classifier: 32 hexadecimal digits grouped 8-4-4-4-12, case-insensitive,
hyphen-separated. -/
def UUIDFormat (cs : List Char) : Prop :=
  ∃ g1 g2 g3 g4 g5 : List Char,
    g1.length = 8 ∧ g2.length = 4 ∧ g3.length = 4 ∧ g4.length = 4 ∧ g5.length = 12 ∧
    (∀ c ∈ g1, isHexChar c = true) ∧ (∀ c ∈ g2, isHexChar c = true) ∧
    (∀ c ∈ g3, isHexChar c = true) ∧ (∀ c ∈ g4, isHexChar c = true) ∧
    (∀ c ∈ g5, isHexChar c = true) ∧
    cs = g1 ++ '-' :: (g2 ++ '-' :: (g3 ++ '-' :: (g4 ++ '-' :: g5)))

/-- hexRun succeeds exactly on a prefix of n hexadecimal digits. -/
theorem hexRun_eq_some {n : Nat} {cs rest : List Char} :
    hexRun n cs = some rest ↔
      ∃ g : List Char, g.length = n ∧ (∀ c ∈ g, isHexChar c = true) ∧ cs = g ++ rest := by
  induction n generalizing cs with
  | zero =>
    constructor
    · intro h
      have hcr : cs = rest := Option.some.inj h
      exact ⟨[], rfl, by simp, hcr⟩
    · rintro ⟨g, hg, -, hcs⟩
      rw [List.length_eq_zero.mp hg] at hcs
      rw [hcs]
      rfl
  | succ n ih =>
    cases cs with
    | nil =>
      constructor
      · intro h
        exact absurd h (by simp [hexRun])
      · rintro ⟨g, hg, -, hcs⟩
        cases g with
        | nil => simp at hg
        | cons c g => simp at hcs
    | cons c cs =>
      by_cases hc : isHexChar c = true
      · rw [show hexRun (n + 1) (c :: cs) = hexRun n cs from by simp [hexRun, hc]]
        rw [ih]
        constructor
        · rintro ⟨g, hg, hhex, rfl⟩
          refine ⟨c :: g, by simp [hg], ?_, rfl⟩
          intro x hx
          rcases List.mem_cons.mp hx with rfl | hx
          · exact hc
          · exact hhex x hx
        · rintro ⟨g, hg, hhex, hcs⟩
          cases g with
          | nil => simp at hg
          | cons c2 g =>
            simp only [List.cons_append, List.cons.injEq] at hcs
            obtain ⟨rfl, hcs⟩ := hcs
            refine ⟨g, by simpa using hg, ?_, hcs⟩
            intro x hx
            exact hhex x (List.mem_cons_of_mem c hx)
      · constructor
        · intro h
          exact absurd h (by simp [hexRun, hc])
        · rintro ⟨g, hg, hhex, hcs⟩
          cases g with
          | nil => simp at hg
          | cons c2 g =>
            simp only [List.cons_append, List.cons.injEq] at hcs
            obtain ⟨rfl, -⟩ := hcs
            exact absurd (hhex c (List.mem_cons_self c g)) hc

/-- expectDash succeeds exactly on a leading hyphen. -/
theorem expectDash_eq_some {cs rest : List Char} :
    expectDash cs = some rest ↔ cs = '-' :: rest := by
  cases cs with
  | nil => simp [expectDash]
  | cons c cs =>
    by_cases h : c = '-'
    · subst h
      simp [expectDash]
    · simp [expectDash, h]

/-- The embedded regular expression accepts exactly the strings in the
specification's identifier format. -/
theorem uuidMatch_iff {cs : List Char} : uuidMatch cs = true ↔ UUIDFormat cs := by
  constructor
  · intro h
    have hch : ((((((((hexRun 8 cs).bind expectDash).bind (hexRun 4)).bind expectDash).bind
        (hexRun 4)).bind expectDash).bind (hexRun 4)).bind expectDash).bind (hexRun 12) =
        some [] := by
      revert h
      unfold uuidMatch
      generalize ((((((((hexRun 8 cs).bind expectDash).bind (hexRun 4)).bind expectDash).bind
        (hexRun 4)).bind expectDash).bind (hexRun 4)).bind expectDash).bind (hexRun 12) = o
      rcases o with - | l
      · intro h
        exact absurd h (by simp)
      · cases l with
        | nil => intro _; rfl
        | cons c l => intro h; exact absurd h (by simp)
    rcases Option.bind_eq_some.mp hch with ⟨t8, hs8, hg5⟩
    rcases Option.bind_eq_some.mp hs8 with ⟨t7, hs7, hd4⟩
    rcases Option.bind_eq_some.mp hs7 with ⟨t6, hs6, hg4⟩
    rcases Option.bind_eq_some.mp hs6 with ⟨t5, hs5, hd3⟩
    rcases Option.bind_eq_some.mp hs5 with ⟨t4, hs4, hg3⟩
    rcases Option.bind_eq_some.mp hs4 with ⟨t3, hs3, hd2⟩
    rcases Option.bind_eq_some.mp hs3 with ⟨t2, hs2, hg2⟩
    rcases Option.bind_eq_some.mp hs2 with ⟨t1, hs1, hd1⟩
    rcases hexRun_eq_some.mp hs1 with ⟨g1, hl1, hx1, hcs⟩
    have e1 := expectDash_eq_some.mp hd1
    rcases hexRun_eq_some.mp hg2 with ⟨g2, hl2, hx2, e2⟩
    have e3 := expectDash_eq_some.mp hd2
    rcases hexRun_eq_some.mp hg3 with ⟨g3, hl3, hx3, e4⟩
    have e5 := expectDash_eq_some.mp hd3
    rcases hexRun_eq_some.mp hg4 with ⟨g4, hl4, hx4, e6⟩
    have e7 := expectDash_eq_some.mp hd4
    rcases hexRun_eq_some.mp hg5 with ⟨g5, hl5, hx5, e8⟩
    refine ⟨g1, g2, g3, g4, g5, hl1, hl2, hl3, hl4, hl5, hx1, hx2, hx3, hx4, hx5, ?_⟩
    subst hcs e1 e2 e3 e4 e5 e6 e7
    rw [e8]
    simp
  · rintro ⟨g1, g2, g3, g4, g5, h1, h2, h3, h4, h5, x1, x2, x3, x4, x5, hcs⟩
    have e1 : hexRun 8 cs = some ('-' :: (g2 ++ '-' :: (g3 ++ '-' :: (g4 ++ '-' :: g5)))) :=
      hexRun_eq_some.mpr ⟨g1, h1, x1, hcs⟩
    have e2 : expectDash ('-' :: (g2 ++ '-' :: (g3 ++ '-' :: (g4 ++ '-' :: g5)))) =
        some (g2 ++ '-' :: (g3 ++ '-' :: (g4 ++ '-' :: g5))) := by simp [expectDash]
    have e3 : hexRun 4 (g2 ++ '-' :: (g3 ++ '-' :: (g4 ++ '-' :: g5))) =
        some ('-' :: (g3 ++ '-' :: (g4 ++ '-' :: g5))) :=
      hexRun_eq_some.mpr ⟨g2, h2, x2, rfl⟩
    have e4 : expectDash ('-' :: (g3 ++ '-' :: (g4 ++ '-' :: g5))) =
        some (g3 ++ '-' :: (g4 ++ '-' :: g5)) := by simp [expectDash]
    have e5 : hexRun 4 (g3 ++ '-' :: (g4 ++ '-' :: g5)) =
        some ('-' :: (g4 ++ '-' :: g5)) :=
      hexRun_eq_some.mpr ⟨g3, h3, x3, rfl⟩
    have e6 : expectDash ('-' :: (g4 ++ '-' :: g5)) = some (g4 ++ '-' :: g5) := by
      simp [expectDash]
    have e7 : hexRun 4 (g4 ++ '-' :: g5) = some ('-' :: g5) :=
      hexRun_eq_some.mpr ⟨g4, h4, x4, rfl⟩
    have e8 : expectDash ('-' :: g5) = some g5 := by simp [expectDash]
    have e9 : hexRun 12 g5 = some [] :=
      hexRun_eq_some.mpr ⟨g5, h5, x5, (List.append_nil g5).symm⟩
    unfold uuidMatch
    rw [e1, Option.some_bind, e2, Option.some_bind, e3, Option.some_bind, e4, Option.some_bind,
        e5, Option.some_bind, e6, Option.some_bind, e7, Option.some_bind, e8, Option.some_bind,
        e9]

/-- Claim C3: the classifier decides Identifier exactly when the trimmed
argument matches the full fixed identifier format, and a string that is
valid except for one extra character is a filter expression. -/
theorem C3_classifier_exact :
    (∀ argument : String,
      classify argument = ArgClass.identifier ↔ UUIDFormat (pyStrip argument.data)) ∧
    classify exUuid = ArgClass.identifier ∧
    classify (exUuid ++ "x") = ArgClass.filterExpression := by
  refine ⟨?_, by decide, by decide⟩
  intro argument
  unfold classify
  by_cases h : uuidMatch (pyStrip argument.data) = true
  · rw [if_pos h]
    exact ⟨fun _ => uuidMatch_iff.mp h, fun _ => rfl⟩
  · rw [if_neg h]
    constructor
    · intro hh
      exact absurd hh (by decide)
    · intro hf
      exact absurd (uuidMatch_iff.mpr hf) h

/-- Every character of a string in the identifier format is a hexadecimal
digit or a hyphen. -/
theorem uuidFormat_chars {cs : List Char} (h : UUIDFormat cs) :
    ∀ c ∈ cs, isHexChar c = true ∨ c = '-' := by
  rcases h with ⟨g1, g2, g3, g4, g5, -, -, -, -, -, x1, x2, x3, x4, x5, rfl⟩
  intro c hc
  simp only [List.mem_append, List.mem_cons] at hc
  rcases hc with hc | hc | hc | hc | hc | hc | hc | hc | hc
  · exact Or.inl (x1 c hc)
  · exact Or.inr hc
  · exact Or.inl (x2 c hc)
  · exact Or.inr hc
  · exact Or.inl (x3 c hc)
  · exact Or.inr hc
  · exact Or.inl (x4 c hc)
  · exact Or.inr hc
  · exact Or.inl (x5 c hc)

/-- Identifier characters are not whitespace and not the space character. -/
theorem uuid_char_not_space {c : Char} (h : isHexChar c = true ∨ c = '-') :
    pyIsSpace c = false ∧ c ≠ ' ' := by
  constructor
  · by_contra hs
    rw [Bool.not_eq_false] at hs
    simp only [pyIsSpace, Bool.or_eq_true, beq_iff_eq] at hs
    rcases h with h | rfl
    · rcases hs with ((((rfl | rfl) | rfl) | rfl) | rfl) | rfl <;> exact absurd h (by decide)
    · rcases hs with ((((h2 | h2) | h2) | h2) | h2) | h2 <;> exact absurd h2 (by decide)
  · rintro rfl
    rcases h with h | h
    · exact absurd h (by decide)
    · exact absurd h (by decide)

/-- dropWhile does nothing on a list with no matching characters. -/
theorem dropWhile_not_space {l : List Char} (h : ∀ c ∈ l, pyIsSpace c = false) :
    l.dropWhile pyIsSpace = l := by
  cases l with
  | nil => rfl
  | cons c cs =>
    rw [List.dropWhile_cons, h c (List.mem_cons_self c cs)]
    simp

/-- Stripping does nothing on a string with no whitespace. -/
theorem pyStrip_eq_self {cs : List Char} (h : ∀ c ∈ cs, pyIsSpace c = false) :
    pyStrip cs = cs := by
  unfold pyStrip
  rw [dropWhile_not_space h,
      dropWhile_not_space (fun c hc => h c (List.mem_reverse.mp hc)),
      List.reverse_reverse]

/-- Splitting at the first space of a line built from a space-free keyword,
a space, and a remainder recovers the keyword and the remainder. -/
theorem splitFirstSpace_append {kw : List Char} (rest : List Char)
    (h : ∀ c ∈ kw, c ≠ ' ') :
    splitFirstSpace (kw ++ ' ' :: rest) = (kw, some rest) := by
  induction kw with
  | nil => simp [splitFirstSpace]
  | cons c cs ih =>
    rw [List.cons_append]
    unfold splitFirstSpace
    rw [if_neg (h c (List.mem_cons_self c cs))]
    rw [ih (fun x hx => h x (List.mem_cons_of_mem c hx))]

/-- Claim C9: for a format-valid uuid, the follow-up query embedded in a
ListTasks item parses back to the list keyword with the uuid and routes to
the action menu for that uuid; the action menu's Annotate item carries a
follow-up query that parses back to the annotate keyword and routes to the
annotate handler, whose split recovers that same uuid. -/
theorem C9_roundtrip (env : Env) (prefs : Prefs) (uuid : String) (b : Bool)
    (hU : uuidMatch uuid.data = true)
    (hl : ∀ c ∈ prefs.list_kw.data, c ≠ ' ')
    (ha : ∀ c ∈ prefs.annotate_kw.data, c ≠ ' ')
    (hne1 : prefs.annotate_kw ≠ prefs.list_kw)
    (hne2 : prefs.annotate_kw ≠ prefs.add_kw)
    (hT : is_tool_installed (env.probe "task") = Except.ok true)
    (hTO : is_tool_installed (env.probe "taskopen") = Except.ok b) :
    parseQuery (prefs.list_kw ++ " " ++ uuid) = (prefs.list_kw, some uuid) ∧
    route env prefs prefs.list_kw (some uuid) =
      Except.ok (some (UlAction.render (actionMenuItems b prefs uuid))) ∧
    (actionMenuItems b prefs uuid)[3]? =
      some { icon := "images/icon.png", name := "Annotate Task",
             description := "Add a note to task " ++ pySlice 8 uuid ++ "...",
             on_enter := ItemAction.setUserQuery (prefs.annotate_kw ++ " " ++ uuid ++ " ") } ∧
    parseQuery (prefs.annotate_kw ++ " " ++ uuid ++ " ") =
      (prefs.annotate_kw, some (uuid ++ " ")) ∧
    route env prefs prefs.annotate_kw (some (uuid ++ " ")) =
      Except.ok (some (annotateTask (some (uuid ++ " ")))) ∧
    annotateParse (some (uuid ++ " ")) = some (uuid, "") := by
  have hchars : ∀ c ∈ uuid.data, isHexChar c = true ∨ c = '-' :=
    uuidFormat_chars (uuidMatch_iff.mp hU)
  have hnsp : ∀ c ∈ uuid.data, pyIsSpace c = false :=
    fun c hc => (uuid_char_not_space (hchars c hc)).1
  have hnsp2 : ∀ c ∈ uuid.data, c ≠ ' ' :=
    fun c hc => (uuid_char_not_space (hchars c hc)).2
  have hne : uuid ≠ "" := by
    intro h0
    rw [h0] at hU
    exact absurd hU (by decide)
  have hdata1 : (prefs.list_kw ++ " " ++ uuid).data =
      prefs.list_kw.data ++ ' ' :: uuid.data := by
    rw [String.data_append, String.data_append]
    show (prefs.list_kw.data ++ [' ']) ++ uuid.data = _
    rw [List.append_assoc, List.singleton_append]
  have hdata2 : (prefs.annotate_kw ++ " " ++ uuid ++ " ").data =
      prefs.annotate_kw.data ++ ' ' :: (uuid.data ++ [' ']) := by
    rw [String.data_append, String.data_append, String.data_append]
    show ((prefs.annotate_kw.data ++ [' ']) ++ uuid.data) ++ [' '] = _
    rw [List.append_assoc, List.append_assoc, List.singleton_append]
  have hdata3 : (uuid ++ " ").data = uuid.data ++ ' ' :: [] := by
    rw [String.data_append]
  refine ⟨?_, ?_, ?_, ?_, ?_, ?_⟩
  · simp only [parseQuery]
    rw [hdata1, splitFirstSpace_append uuid.data hl]
    rfl
  · rw [route_probe_ok env prefs prefs.list_kw (some uuid) hT]
    rw [if_pos rfl]
    have hcl : classify (pyOr (some uuid) "") = ArgClass.identifier := by
      have hp : pyOr (some uuid) "" = uuid := by simp [pyOr, hne]
      rw [hp]
      unfold classify
      rw [pyStrip_eq_self hnsp]
      rw [if_pos hU]
    rw [if_pos hcl]
    have hAM : actionMenu env prefs (some uuid) =
        Except.ok (UlAction.render (actionMenuItems b prefs uuid)) := by
      simp only [actionMenu, hTO, except_ok_bind]
    rw [hAM]
    rfl
  · simp [actionMenuItems]
  · simp only [parseQuery]
    rw [hdata2, splitFirstSpace_append _ ha]
    rfl
  · rw [route_probe_ok env prefs prefs.annotate_kw (some (uuid ++ " ")) hT]
    rw [if_neg hne1]
    rw [if_neg hne2]
    rw [if_pos rfl]
  · simp only [annotateParse]
    rw [hdata3, splitFirstSpace_append ([] : List Char) hnsp2]

/-- Environment in which both probes succeed. -/
def envOk : Env :=
  { probe := fun _ => Except.ok "3.0.0",
    run := fun _ => Except.ok "[]",
    jsonParse := fun _ => Except.ok (Json.arr []) }

theorem C9_roundtrip_wit :
    parseQuery (prefs0.list_kw ++ " " ++ exUuid) = (prefs0.list_kw, some exUuid) ∧
    route envOk prefs0 prefs0.list_kw (some exUuid) =
      Except.ok (some (UlAction.render (actionMenuItems true prefs0 exUuid))) ∧
    (actionMenuItems true prefs0 exUuid)[3]? =
      some { icon := "images/icon.png", name := "Annotate Task",
             description := "Add a note to task " ++ pySlice 8 exUuid ++ "...",
             on_enter := ItemAction.setUserQuery (prefs0.annotate_kw ++ " " ++ exUuid ++ " ") } ∧
    parseQuery (prefs0.annotate_kw ++ " " ++ exUuid ++ " ") =
      (prefs0.annotate_kw, some (exUuid ++ " ")) ∧
    route envOk prefs0 prefs0.annotate_kw (some (exUuid ++ " ")) =
      Except.ok (some (annotateTask (some (exUuid ++ " ")))) ∧
    annotateParse (some (exUuid ++ " ")) = some (exUuid, "") :=
  C9_roundtrip envOk prefs0 exUuid true (by decide) (by decide) (by decide)
    (by decide) (by decide) rfl rfl
